import Mathlib

/-!
Verification of the Preservation Core disconnect classification engine.

The engine classifies a multiplayer disconnect as `none`,
`intentional_disconnect` or `unintentional_disconnect` and decides whether
a loss is applied, from a bundle of signals: an explicit quit flag, an
optional network snapshot, an optional time since last packet with an
optional timeout threshold, and two optional game-agnostic context values
(competitive advantage and fairness confidence).

Numbers in the source are JavaScript numbers used only through order
comparisons against fixed constants and through range checks; they are
modelled as rationals (ℚ), on which all comparisons are decidable.
-/

/-- Type of a classified disconnect. -/
inductive DisconnectType where
  | none
  | intentional_disconnect
  | unintentional_disconnect
deriving DecidableEq, Repr

/-- A point-in-time network-quality reading. `isConnected` is a boolean in
the typed embedding, so the dynamic `typeof` guard of the source validator
can never fire here. -/
structure NetworkSnapshot where
  latencyMs : ℚ
  packetLossRate : ℚ
  isConnected : Bool
  timestamp : Option ℚ
deriving DecidableEq, Repr

/-- The complete input of one classification call. -/
structure DisconnectSignals where
  quitAction : Bool
  networkBeforeDisconnect : Option NetworkSnapshot
  timeSinceLastPacket : Option ℚ
  timeoutThreshold : Option ℚ
  competitiveAdvantage : Option ℚ
  fairnessConfidence : Option ℚ
deriving DecidableEq, Repr

/-- The boolean signal breakdown reported with every verdict. The source
always sets the two `...Used` fields, so they are plain booleans here. -/
structure SignalFlags where
  quitDetected : Bool
  timeoutDetected : Bool
  highPacketLoss : Bool
  highLatency : Bool
  hardDisconnect : Bool
  competitiveAdvantageUsed : Bool
  fairnessConfidenceUsed : Bool
deriving DecidableEq, Repr

/-- The output of one classification call. -/
structure ClassificationResult where
  type : DisconnectType
  lossApplied : Bool
  signals : SignalFlags
deriving DecidableEq, Repr

/-- Packet loss rate at or above 25% indicates network problems. -/
def THRESHOLDS_HIGH_PACKET_LOSS : ℚ := mkRat 25 100

/-- Latency at or above 800 ms indicates network problems. -/
def THRESHOLDS_HIGH_LATENCY_MS : ℚ := 800

/-- Default timeout threshold: 5000 ms since the last packet. -/
def THRESHOLDS_TIMEOUT_MS : ℚ := 5000

/-- The signal-flag block computed at the top of `classifyDisconnect`
(threshold evaluator): timeout detection from `timeSinceLastPacket`
against the (defaulted) threshold, the three network-derived flags from
the snapshot when present, and the two informational context flags. -/
def signalFlagsOf (s : DisconnectSignals) : SignalFlags :=
  { quitDetected := s.quitAction
    timeoutDetected :=
      match s.timeSinceLastPacket with
      | Option.some t => decide (t ≥ s.timeoutThreshold.getD THRESHOLDS_TIMEOUT_MS)
      | Option.none => false
    highPacketLoss :=
      match s.networkBeforeDisconnect with
      | Option.some n => decide (n.packetLossRate ≥ THRESHOLDS_HIGH_PACKET_LOSS)
      | Option.none => false
    highLatency :=
      match s.networkBeforeDisconnect with
      | Option.some n => decide (n.latencyMs ≥ THRESHOLDS_HIGH_LATENCY_MS)
      | Option.none => false
    hardDisconnect :=
      match s.networkBeforeDisconnect with
      | Option.some n => !n.isConnected
      | Option.none => false
    competitiveAdvantageUsed := s.competitiveAdvantage.isSome
    fairnessConfidenceUsed := s.fairnessConfidence.isSome }

/-- The classification decision function. Priority order: explicit quit
first, then network problems (with the context-weighting sub-branches of
the source kept explicit, every one of which preserves the match), then
the no-disconnect default. -/
def classifyDisconnect (s : DisconnectSignals) : ClassificationResult :=
  let signalFlags := signalFlagsOf s
  if s.quitAction then
    { type := DisconnectType.intentional_disconnect
      lossApplied := true
      signals := signalFlags }
  else
    let hasNetworkProblem :=
      signalFlags.timeoutDetected || signalFlags.highPacketLoss ||
      signalFlags.highLatency || signalFlags.hardDisconnect
    if hasNetworkProblem then
      if s.competitiveAdvantage.isSome || s.fairnessConfidence.isSome then
        if (match s.competitiveAdvantage with
            | Option.some a => decide (a > mkRat 3 10)
            | Option.none => false) then
          { type := DisconnectType.unintentional_disconnect
            lossApplied := false
            signals := signalFlags }
        else if (match s.competitiveAdvantage, s.fairnessConfidence with
            | Option.some a, Option.some f =>
                decide (a < -(mkRat 3 10)) && decide (f > mkRat 8 10)
            | _, _ => false) then
          { type := DisconnectType.unintentional_disconnect
            lossApplied := false
            signals := signalFlags }
        else if (match s.fairnessConfidence with
            | Option.some f => decide (f < mkRat 3 10)
            | Option.none => false) then
          { type := DisconnectType.unintentional_disconnect
            lossApplied := false
            signals := signalFlags }
        else
          { type := DisconnectType.unintentional_disconnect
            lossApplied := false
            signals := signalFlags }
      else
        { type := DisconnectType.unintentional_disconnect
          lossApplied := false
          signals := signalFlags }
    else
      { type := DisconnectType.none
        lossApplied := false
        signals := signalFlags }

/-- Result of validating a network snapshot: a validity bit plus the list
of violated constraints. -/
structure SnapshotValidation where
  valid : Bool
  errors : List String
deriving DecidableEq, Repr

/-- Result of validating one scalar context signal. -/
structure ScalarValidation where
  valid : Bool
  error : Option String
deriving DecidableEq, Repr

/-- Validates a network snapshot, collecting one message per violated
constraint in source order. The third source check, that `isConnected` is
a boolean, is statically true in this typed embedding and contributes no
message. -/
def validateNetworkSnapshot (s : NetworkSnapshot) : SnapshotValidation :=
  let errors : List String :=
    (if s.latencyMs < 0 then ["latencyMs must be >= 0"] else []) ++
    (if s.packetLossRate < 0 ∨ s.packetLossRate > 1 then
      ["packetLossRate must be between 0 and 1"] else [])
  { valid := errors.length = 0
    errors := errors }

/-- Validates the competitive-advantage signal: must lie in [-1.0, 1.0]. -/
def validateCompetitiveAdvantage (advantage : ℚ) : ScalarValidation :=
  if advantage < -1 ∨ advantage > 1 then
    { valid := false
      error := Option.some "competitiveAdvantage must be between -1.0 and 1.0" }
  else
    { valid := true, error := Option.none }

/-- Validates the fairness-confidence signal: must lie in [0.0, 1.0]. -/
def validateFairnessConfidence (confidence : ℚ) : ScalarValidation :=
  if confidence < 0 ∨ confidence > 1 then
    { valid := false
      error := Option.some "fairnessConfidence must be between 0.0 and 1.0" }
  else
    { valid := true, error := Option.none }

/-- Whether any of the four network/timeout flags fired. -/
def hasNetworkProblemOf (s : DisconnectSignals) : Bool :=
  (signalFlagsOf s).timeoutDetected || (signalFlagsOf s).highPacketLoss ||
  (signalFlagsOf s).highLatency || (signalFlagsOf s).hardDisconnect

/-- Example input: an explicit quit in a winning, settled position with a
broken network. -/
def exQuit : DisconnectSignals :=
  { quitAction := true
    networkBeforeDisconnect := Option.some
      { latencyMs := 1200, packetLossRate := mkRat 4 10
        isConnected := false, timestamp := Option.none }
    timeSinceLastPacket := Option.some 6000
    timeoutThreshold := Option.none
    competitiveAdvantage := Option.some (mkRat 7 10)
    fairnessConfidence := Option.some (mkRat 9 10) }

/-- Example input: rule 2b — losing badly, outcome settled, timed out. -/
def exRule2b : DisconnectSignals :=
  { quitAction := false
    networkBeforeDisconnect := Option.some
      { latencyMs := 900, packetLossRate := mkRat 3 10
        isConnected := false, timestamp := Option.none }
    timeSinceLastPacket := Option.none
    timeoutThreshold := Option.none
    competitiveAdvantage := Option.some (-(mkRat 5 10))
    fairnessConfidence := Option.some (mkRat 9 10) }

/-- Example input: normal completion, context supplied but no flags. -/
def exNone : DisconnectSignals :=
  { quitAction := false
    networkBeforeDisconnect := Option.some
      { latencyMs := 50, packetLossRate := mkRat 5 100
        isConnected := true, timestamp := Option.none }
    timeSinceLastPacket := Option.some 100
    timeoutThreshold := Option.none
    competitiveAdvantage := Option.some (-(mkRat 5 10))
    fairnessConfidence := Option.some (mkRat 9 10) }

/-- Example input: no snapshot, no timing, no context, no quit. -/
def exEmpty : DisconnectSignals :=
  { quitAction := false
    networkBeforeDisconnect := Option.none
    timeSinceLastPacket := Option.none
    timeoutThreshold := Option.none
    competitiveAdvantage := Option.none
    fairnessConfidence := Option.none }

/-- Example input: no quit, no snapshot, no timing, but both context
signals supplied. Agrees with `exEmpty` on everything the verdict reads. -/
def exEmptyCtx : DisconnectSignals :=
  { quitAction := false
    networkBeforeDisconnect := Option.none
    timeSinceLastPacket := Option.none
    timeoutThreshold := Option.none
    competitiveAdvantage := Option.some 1
    fairnessConfidence := Option.some (mkRat 1 100) }

/-- Example input: every threshold comparison sits exactly at its boundary
(packet loss 0.25, latency 800 ms, time since last packet equal to the
default 5000 ms threshold). -/
def exBoundary : DisconnectSignals :=
  { quitAction := false
    networkBeforeDisconnect := Option.some
      { latencyMs := 800, packetLossRate := mkRat 25 100
        isConnected := true, timestamp := Option.none }
    timeSinceLastPacket := Option.some 5000
    timeoutThreshold := Option.none
    competitiveAdvantage := Option.none
    fairnessConfidence := Option.none }

/-- Example input: a snapshot violating both numeric constraints. -/
def exBadSnapshot : NetworkSnapshot :=
  { latencyMs := -5
    packetLossRate := mkRat 15 10
    isConnected := true
    timestamp := Option.none }

/-- Collapsing the context-weighting sub-branches: the verdict depends only
on the quit flag and on whether some network/timeout flag fired. -/
lemma classifyDisconnect_eq (s : DisconnectSignals) :
    classifyDisconnect s =
      if s.quitAction then
        { type := DisconnectType.intentional_disconnect
          lossApplied := true
          signals := signalFlagsOf s }
      else if hasNetworkProblemOf s then
        { type := DisconnectType.unintentional_disconnect
          lossApplied := false
          signals := signalFlagsOf s }
      else
        { type := DisconnectType.none
          lossApplied := false
          signals := signalFlagsOf s } := by
  unfold classifyDisconnect hasNetworkProblemOf
  cases hq : s.quitAction
  · simp only [Bool.false_eq_true, if_false]
    split
    · split
      · split
        · rfl
        · split
          · rfl
          · split
            · rfl
            · rfl
      · rfl
    · rfl
  · simp only [if_true]

/-- The signals field of the result is exactly the computed flag block. -/
lemma classifyDisconnect_signals (s : DisconnectSignals) :
    (classifyDisconnect s).signals = signalFlagsOf s := by
  rw [classifyDisconnect_eq]
  split
  · rfl
  · split
    · rfl
    · rfl

/-- The five primary signal flags depend only on the quit flag, the
snapshot, the packet timing and the threshold, never on the two optional
context values. -/
lemma signalFlagsOf_core_congr (s₁ s₂ : DisconnectSignals)
    (hq : s₁.quitAction = s₂.quitAction)
    (hn : s₁.networkBeforeDisconnect = s₂.networkBeforeDisconnect)
    (ht : s₁.timeSinceLastPacket = s₂.timeSinceLastPacket)
    (hth : s₁.timeoutThreshold = s₂.timeoutThreshold) :
    (signalFlagsOf s₁).quitDetected = (signalFlagsOf s₂).quitDetected ∧
    (signalFlagsOf s₁).timeoutDetected = (signalFlagsOf s₂).timeoutDetected ∧
    (signalFlagsOf s₁).highPacketLoss = (signalFlagsOf s₂).highPacketLoss ∧
    (signalFlagsOf s₁).highLatency = (signalFlagsOf s₂).highLatency ∧
    (signalFlagsOf s₁).hardDisconnect = (signalFlagsOf s₂).hardDisconnect := by
  simp only [signalFlagsOf]
  rw [hq, hn, ht, hth]
  exact ⟨rfl, rfl, rfl, rfl, rfl⟩

/-- C1: the result type is `intentional_disconnect` exactly when
`quitAction` is true, and an explicit quit always applies the loss,
whatever the network, timing and context fields hold. -/
theorem C1_intentional_iff_quit (s : DisconnectSignals) :
    ((classifyDisconnect s).type = DisconnectType.intentional_disconnect ↔
      s.quitAction = true) ∧
    (s.quitAction = true → (classifyDisconnect s).lossApplied = true) := by
  rw [classifyDisconnect_eq]
  cases hq : s.quitAction
  · simp only [hq, Bool.false_eq_true, if_false]
    split <;> simp
  · simp only [hq, if_true]
    simp

/-- C1 witness: the theorem instantiated at a quit with full network
problems and context supplied. -/
theorem C1_intentional_iff_quit_witness :
    ((classifyDisconnect exQuit).type = DisconnectType.intentional_disconnect ↔
      exQuit.quitAction = true) ∧
    (exQuit.quitAction = true → (classifyDisconnect exQuit).lossApplied = true) :=
  C1_intentional_iff_quit exQuit

/-- C2: without a quit, whenever at least one of the four network/timeout
flags fired, the verdict is `unintentional_disconnect` with no loss — in
every sub-case of rule 2, rule 2b included. -/
theorem C2_network_problem_preserves (s : DisconnectSignals)
    (hq : s.quitAction = false)
    (hp : (classifyDisconnect s).signals.timeoutDetected = true ∨
          (classifyDisconnect s).signals.highPacketLoss = true ∨
          (classifyDisconnect s).signals.highLatency = true ∨
          (classifyDisconnect s).signals.hardDisconnect = true) :
    (classifyDisconnect s).type = DisconnectType.unintentional_disconnect ∧
    (classifyDisconnect s).lossApplied = false := by
  rw [classifyDisconnect_signals] at hp
  have hprob : hasNetworkProblemOf s = true := by
    unfold hasNetworkProblemOf
    rcases hp with h | h | h | h <;> simp [h]
  rw [classifyDisconnect_eq, hq, hprob]
  simp

/-- C2 witness: rule 2b — player clearly behind, outcome settled, hard
disconnect with bad latency and packet loss; the match is preserved. -/
theorem C2_network_problem_preserves_witness :
    (classifyDisconnect exRule2b).type = DisconnectType.unintentional_disconnect ∧
    (classifyDisconnect exRule2b).lossApplied = false :=
  C2_network_problem_preserves exRule2b (by decide) (by decide)

/-- C3: the output invariant — `intentional_disconnect` implies the loss
is applied, `none` implies it is not. -/
theorem C3_result_invariant (s : DisconnectSignals) :
    ((classifyDisconnect s).type = DisconnectType.intentional_disconnect →
      (classifyDisconnect s).lossApplied = true) ∧
    ((classifyDisconnect s).type = DisconnectType.none →
      (classifyDisconnect s).lossApplied = false) := by
  rw [classifyDisconnect_eq]
  split
  · simp
  · split <;> simp

/-- C3 witness: the invariant instantiated at an explicit quit. -/
theorem C3_result_invariant_witness :
    ((classifyDisconnect exQuit).type = DisconnectType.intentional_disconnect →
      (classifyDisconnect exQuit).lossApplied = true) ∧
    ((classifyDisconnect exQuit).type = DisconnectType.none →
      (classifyDisconnect exQuit).lossApplied = false) :=
  C3_result_invariant exQuit

/-- C4: the threshold evaluator computes exactly the stated comparisons,
all inclusive: timeout iff the packet gap is present and at least the
(defaulted 5000 ms) threshold, and with a snapshot present, packet loss
at least 0.25, latency at least 800 ms, and hard disconnect iff the
transport reported disconnected. -/
theorem C4_threshold_evaluator (s : DisconnectSignals) :
    ((classifyDisconnect s).signals.timeoutDetected = true ↔
      ∃ t, s.timeSinceLastPacket = Option.some t ∧
        s.timeoutThreshold.getD THRESHOLDS_TIMEOUT_MS ≤ t) ∧
    (∀ n, s.networkBeforeDisconnect = Option.some n →
      ((classifyDisconnect s).signals.highPacketLoss = true ↔
        THRESHOLDS_HIGH_PACKET_LOSS ≤ n.packetLossRate) ∧
      ((classifyDisconnect s).signals.highLatency = true ↔
        THRESHOLDS_HIGH_LATENCY_MS ≤ n.latencyMs) ∧
      ((classifyDisconnect s).signals.hardDisconnect = true ↔
        n.isConnected = false)) := by
  rw [classifyDisconnect_signals]
  constructor
  · simp only [signalFlagsOf]
    cases ht : s.timeSinceLastPacket <;> simp [ht]
  · intro n hn
    simp only [signalFlagsOf, hn]
    refine ⟨by simp, by simp, ?_⟩
    cases n.isConnected <;> simp

/-- C4 witness: the characterization instantiated at an input sitting
exactly on every boundary, where each inclusive comparison fires. -/
theorem C4_threshold_evaluator_witness :
    (((classifyDisconnect exBoundary).signals.timeoutDetected = true ↔
      ∃ t, exBoundary.timeSinceLastPacket = Option.some t ∧
        exBoundary.timeoutThreshold.getD THRESHOLDS_TIMEOUT_MS ≤ t) ∧
    (∀ n, exBoundary.networkBeforeDisconnect = Option.some n →
      ((classifyDisconnect exBoundary).signals.highPacketLoss = true ↔
        THRESHOLDS_HIGH_PACKET_LOSS ≤ n.packetLossRate) ∧
      ((classifyDisconnect exBoundary).signals.highLatency = true ↔
        THRESHOLDS_HIGH_LATENCY_MS ≤ n.latencyMs) ∧
      ((classifyDisconnect exBoundary).signals.hardDisconnect = true ↔
        n.isConnected = false))) :=
  C4_threshold_evaluator exBoundary

/-- The packet-loss threshold is the source constant 0.25. -/
lemma THRESHOLDS_HIGH_PACKET_LOSS_eq : THRESHOLDS_HIGH_PACKET_LOSS = 25 / 100 := by
  norm_num [THRESHOLDS_HIGH_PACKET_LOSS, Rat.mkRat_eq_div]

/-- C5: without a quit and with none of the four network/timeout flags
set, the verdict is `none` with no loss, whatever context was supplied. -/
theorem C5_no_signal_none (s : DisconnectSignals)
    (hq : s.quitAction = false)
    (hp : (classifyDisconnect s).signals.timeoutDetected = false ∧
          (classifyDisconnect s).signals.highPacketLoss = false ∧
          (classifyDisconnect s).signals.highLatency = false ∧
          (classifyDisconnect s).signals.hardDisconnect = false) :
    (classifyDisconnect s).type = DisconnectType.none ∧
    (classifyDisconnect s).lossApplied = false := by
  rw [classifyDisconnect_signals] at hp
  obtain ⟨h1, h2, h3, h4⟩ := hp
  have hprob : hasNetworkProblemOf s = false := by
    unfold hasNetworkProblemOf
    simp [h1, h2, h3, h4]
  rw [classifyDisconnect_eq, hq, hprob]
  simp

/-- C5 witness: healthy network, recent packets, both context signals
supplied; the verdict is `none`. -/
theorem C5_no_signal_none_witness :
    (classifyDisconnect exNone).type = DisconnectType.none ∧
    (classifyDisconnect exNone).lossApplied = false :=
  C5_no_signal_none exNone (by decide) (by decide)

/-- C6: with no network snapshot, the three network-derived flags are all
false, and for every input `quitDetected` mirrors `quitAction` verbatim. -/
theorem C6_no_snapshot_no_network_flags (s : DisconnectSignals) :
    (s.networkBeforeDisconnect = Option.none →
      (classifyDisconnect s).signals.highPacketLoss = false ∧
      (classifyDisconnect s).signals.highLatency = false ∧
      (classifyDisconnect s).signals.hardDisconnect = false) ∧
    (classifyDisconnect s).signals.quitDetected = s.quitAction := by
  rw [classifyDisconnect_signals]
  constructor
  · intro hn
    simp [signalFlagsOf, hn]
  · rfl

/-- C6 witness: the theorem instantiated at the snapshot-free input. -/
theorem C6_no_snapshot_no_network_flags_witness :
    (exEmpty.networkBeforeDisconnect = Option.none →
      (classifyDisconnect exEmpty).signals.highPacketLoss = false ∧
      (classifyDisconnect exEmpty).signals.highLatency = false ∧
      (classifyDisconnect exEmpty).signals.hardDisconnect = false) ∧
    (classifyDisconnect exEmpty).signals.quitDetected = exEmpty.quitAction :=
  C6_no_snapshot_no_network_flags exEmpty

/-- C7: the snapshot validator is invalid exactly on negative latency or a
packet-loss rate outside [0, 1] (the boolean-type guard on `isConnected`
cannot fire on typed input), its error list names exactly the violated
constraints in source order, and validity coincides with an empty error
list; the two scalar validators are invalid exactly outside [-1.0, 1.0]
and [0.0, 1.0] respectively. -/
theorem C7_validators (s : NetworkSnapshot) (a c : ℚ) :
    ((validateNetworkSnapshot s).valid = false ↔
      (s.latencyMs < 0 ∨ s.packetLossRate < 0 ∨ s.packetLossRate > 1)) ∧
    (validateNetworkSnapshot s).errors =
      ((if s.latencyMs < 0 then ["latencyMs must be >= 0"] else []) ++
       (if s.packetLossRate < 0 ∨ s.packetLossRate > 1 then
         ["packetLossRate must be between 0 and 1"] else [])) ∧
    ((validateNetworkSnapshot s).valid = true ↔
      (validateNetworkSnapshot s).errors = []) ∧
    ((validateCompetitiveAdvantage a).valid = false ↔ (a < -1 ∨ a > 1)) ∧
    ((validateFairnessConfidence c).valid = false ↔ (c < 0 ∨ c > 1)) := by
  refine ⟨?_, ?_, ?_, ?_, ?_⟩
  · unfold validateNetworkSnapshot
    by_cases h1 : s.latencyMs < 0 <;>
      by_cases h2 : s.packetLossRate < 0 ∨ s.packetLossRate > 1 <;>
        simp [h1, h2]
  · unfold validateNetworkSnapshot
    rfl
  · unfold validateNetworkSnapshot
    by_cases h1 : s.latencyMs < 0 <;>
      by_cases h2 : s.packetLossRate < 0 ∨ s.packetLossRate > 1 <;>
        simp [h1, h2]
  · unfold validateCompetitiveAdvantage
    by_cases h : a < -1 ∨ a > 1 <;> simp [h]
  · unfold validateFairnessConfidence
    by_cases h : c < 0 ∨ c > 1 <;> simp [h]

/-- C7 witness: the characterization instantiated at a doubly invalid
snapshot and out-of-range scalars. -/
theorem C7_validators_witness :
    (((validateNetworkSnapshot exBadSnapshot).valid = false ↔
      (exBadSnapshot.latencyMs < 0 ∨ exBadSnapshot.packetLossRate < 0 ∨
        exBadSnapshot.packetLossRate > 1)) ∧
    (validateNetworkSnapshot exBadSnapshot).errors =
      ((if exBadSnapshot.latencyMs < 0 then ["latencyMs must be >= 0"] else []) ++
       (if exBadSnapshot.packetLossRate < 0 ∨ exBadSnapshot.packetLossRate > 1 then
         ["packetLossRate must be between 0 and 1"] else [])) ∧
    ((validateNetworkSnapshot exBadSnapshot).valid = true ↔
      (validateNetworkSnapshot exBadSnapshot).errors = []) ∧
    ((validateCompetitiveAdvantage 2).valid = false ↔ ((2:ℚ) < -1 ∨ (2:ℚ) > 1)) ∧
    ((validateFairnessConfidence 2).valid = false ↔ ((2:ℚ) < 0 ∨ (2:ℚ) > 1))) :=
  C7_validators exBadSnapshot 2 2

/-- C8: the classifier is deterministic and total — identical inputs give
identical outputs, and every input yields a result. Purity holds by
construction: the embedding is a function of its argument alone, with no
state, I/O or mutation, exactly as in the source. -/
theorem C8_deterministic_total (s₁ s₂ : DisconnectSignals) (h : s₁ = s₂) :
    classifyDisconnect s₁ = classifyDisconnect s₂ ∧
    ∃ r : ClassificationResult, classifyDisconnect s₁ = r := by
  subst h
  exact ⟨rfl, ⟨classifyDisconnect s₁, rfl⟩⟩

/-- C8 witness: two runs on the same concrete input coincide. -/
theorem C8_deterministic_total_witness :
    classifyDisconnect exQuit = classifyDisconnect exQuit ∧
    ∃ r : ClassificationResult, classifyDisconnect exQuit = r :=
  C8_deterministic_total exQuit exQuit rfl

/-- C9: the optional context signals never influence the verdict — two
inputs agreeing on the quit flag, snapshot, packet timing and threshold
produce the same type, the same loss decision and the same five primary
flags, however their `competitiveAdvantage` and `fairnessConfidence`
differ. -/
theorem C9_context_noninterference (s₁ s₂ : DisconnectSignals)
    (hq : s₁.quitAction = s₂.quitAction)
    (hn : s₁.networkBeforeDisconnect = s₂.networkBeforeDisconnect)
    (ht : s₁.timeSinceLastPacket = s₂.timeSinceLastPacket)
    (hth : s₁.timeoutThreshold = s₂.timeoutThreshold) :
    (classifyDisconnect s₁).type = (classifyDisconnect s₂).type ∧
    (classifyDisconnect s₁).lossApplied = (classifyDisconnect s₂).lossApplied ∧
    (classifyDisconnect s₁).signals.quitDetected =
      (classifyDisconnect s₂).signals.quitDetected ∧
    (classifyDisconnect s₁).signals.timeoutDetected =
      (classifyDisconnect s₂).signals.timeoutDetected ∧
    (classifyDisconnect s₁).signals.highPacketLoss =
      (classifyDisconnect s₂).signals.highPacketLoss ∧
    (classifyDisconnect s₁).signals.highLatency =
      (classifyDisconnect s₂).signals.highLatency ∧
    (classifyDisconnect s₁).signals.hardDisconnect =
      (classifyDisconnect s₂).signals.hardDisconnect := by
  obtain ⟨f1, f2, f3, f4, f5⟩ := signalFlagsOf_core_congr s₁ s₂ hq hn ht hth
  have hprob : hasNetworkProblemOf s₁ = hasNetworkProblemOf s₂ := by
    unfold hasNetworkProblemOf
    rw [f2, f3, f4, f5]
  refine ⟨?_, ?_, ?_, ?_, ?_, ?_, ?_⟩ <;>
    rw [classifyDisconnect_eq s₁, classifyDisconnect_eq s₂, hq, hprob] <;>
      cases s₂.quitAction <;> cases hpb : hasNetworkProblemOf s₂ <;>
        simp [f1, f2, f3, f4, f5]

/-- C9 witness: the same quiet input with and without context signals
gets the same verdict. -/
theorem C9_context_noninterference_witness :
    (classifyDisconnect exEmpty).type = (classifyDisconnect exEmptyCtx).type ∧
    (classifyDisconnect exEmpty).lossApplied =
      (classifyDisconnect exEmptyCtx).lossApplied ∧
    (classifyDisconnect exEmpty).signals.quitDetected =
      (classifyDisconnect exEmptyCtx).signals.quitDetected ∧
    (classifyDisconnect exEmpty).signals.timeoutDetected =
      (classifyDisconnect exEmptyCtx).signals.timeoutDetected ∧
    (classifyDisconnect exEmpty).signals.highPacketLoss =
      (classifyDisconnect exEmptyCtx).signals.highPacketLoss ∧
    (classifyDisconnect exEmpty).signals.highLatency =
      (classifyDisconnect exEmptyCtx).signals.highLatency ∧
    (classifyDisconnect exEmpty).signals.hardDisconnect =
      (classifyDisconnect exEmptyCtx).signals.hardDisconnect :=
  C9_context_noninterference exEmpty exEmptyCtx rfl rfl rfl rfl

/-- C10: the validators accept their closed-interval endpoints — -1.0 and
1.0 for competitive advantage, 0.0 and 1.0 for fairness confidence, and
latency 0 with packet loss 0.0 or 1.0 for the snapshot — while points
just outside are rejected. -/
theorem C10_validator_endpoints :
    (validateCompetitiveAdvantage (-1)).valid = true ∧
    (validateCompetitiveAdvantage 1).valid = true ∧
    (validateFairnessConfidence 0).valid = true ∧
    (validateFairnessConfidence 1).valid = true ∧
    (validateNetworkSnapshot
      { latencyMs := 0, packetLossRate := 0
        isConnected := true, timestamp := Option.none }).errors = [] ∧
    (validateNetworkSnapshot
      { latencyMs := 0, packetLossRate := 1
        isConnected := true, timestamp := Option.none }).valid = true ∧
    (validateCompetitiveAdvantage (-(mkRat 11 10))).valid = false ∧
    (validateCompetitiveAdvantage (mkRat 11 10)).valid = false ∧
    (validateFairnessConfidence (-(mkRat 1 10))).valid = false ∧
    (validateFairnessConfidence (mkRat 11 10)).valid = false := by
  decide
